import Mathlib

/-!
Shallow embedding of the real-time order-book WebSocket client of the
Dallal repository.

The embedded code is:
* `src/frontend/src/services/websocket.ts` — class `WebSocketService`
  (connection lifecycle, reconnect backoff, outbound message queue,
  listener registry);
* the zustand store `useWebSocketStore` (snapshot cache keyed by symbol,
  subscription switching, store-level disconnect).

The client is single-threaded and event-driven, so its behaviour is
modelled as pure state-transition functions on an explicit state record.
Fields of the state that the source mutates are carried verbatim
(`reconnectAttempts`, `isConnecting`, `messageQueue`); in addition the
state carries observation logs (`sent`, `events`, `scheduled`,
`connectCalls`, `closeCalls`) recording the externally visible actions
the source performs (transport sends, emitted events, `setTimeout`
scheduling of reconnects, `new WebSocket` creations, `ws.close` calls).
JavaScript numbers that the client only stores and never computes with
(prices, sizes) are carried as exact rationals.
-/

namespace Dallal

/-- `this.ws` in `websocket.ts`: either `null` or a socket whose
`readyState` is one of the four WebSocket states. -/
inductive Handle where
  | nullWs
  | CONNECTING
  | OPEN
  | CLOSING
  | CLOSED
  deriving DecidableEq, Repr

/-- Outbound wire commands built by `subscribe` / `unsubscribe`
(`websocket.ts` lines 143–160).  `subscribe s l` stands for the JSON
object with fields `type:"subscribe", symbol:s, levels:l`;
`unsubscribe s` for `type:"unsubscribe", symbol:s`. -/
inductive Msg where
  | subscribe (symbol : String) (levels : Nat)
  | unsubscribe (symbol : String)
  deriving DecidableEq, Repr

/-- The JSON text `JSON.stringify` produces for the two outbound command
shapes (`ws.send(JSON.stringify(message))`, `websocket.ts` line 164). -/
def wireFormat : Msg → String
  | Msg.subscribe s l =>
      "\x7b\"type\":\"subscribe\",\"symbol\":\"" ++ s ++ "\",\"levels\":" ++ toString l ++ "\x7d"
  | Msg.unsubscribe s =>
      "\x7b\"type\":\"unsubscribe\",\"symbol\":\"" ++ s ++ "\"\x7d"

/-- Events emitted through `this.emit(...)` in `websocket.ts`. -/
inductive Event where
  | connected
  | disconnected (code : Nat) (reason : String)
  | errorEvt
  deriving DecidableEq, Repr

/-- Default of the field `maxReconnectAttempts = 5` (`websocket.ts` line 66). -/
def maxReconnectAttempts : Nat := 5

/-- Default of the field `reconnectInterval = 1000` (`websocket.ts` line 67). -/
def reconnectInterval : Nat := 1000

/-- State of one `WebSocketService` instance.  The first four fields are
the mutable fields of the class; the remaining fields log the externally
visible actions the class performs. -/
structure WebSocketService where
  handle : Handle
  isConnecting : Bool
  reconnectAttempts : Nat
  messageQueue : List Msg
  /-- log of `ws.send` calls, oldest first -/
  sent : List Msg
  /-- log of `this.emit(...)` calls, oldest first -/
  events : List Event
  /-- log of `setTimeout` reconnect scheduling: (attempt number, delay ms) -/
  scheduled : List (Nat × Nat)
  /-- number of `new WebSocket(url)` constructions -/
  connectCalls : Nat
  /-- log of `ws.close(code, reason)` calls -/
  closeCalls : List (Nat × String)
  deriving DecidableEq, Repr

namespace WebSocketService

/-- `private sendMessage(message)` (`websocket.ts` lines 162–169): send
when the socket is open, otherwise push onto `messageQueue`. -/
def sendMessage (w : WebSocketService) (m : Msg) : WebSocketService :=
  if w.handle = Handle.OPEN then
    { w with sent := w.sent ++ [m] }
  else
    { w with messageQueue := w.messageQueue ++ [m] }

/-- `subscribe(symbol, levels = 5)` (`websocket.ts` lines 143–151). -/
def subscribe (w : WebSocketService) (symbol : String) (levels : Nat := 5) :
    WebSocketService :=
  sendMessage w (Msg.subscribe symbol levels)

/-- `unsubscribe(symbol)` (`websocket.ts` lines 153–160). -/
def unsubscribe (w : WebSocketService) (symbol : String) : WebSocketService :=
  sendMessage w (Msg.unsubscribe symbol)

/-- `private processMessageQueue()` (`websocket.ts` lines 171–176): the
`while (this.messageQueue.length > 0)` loop, with explicit fuel bounding
the number of iterations.  Each iteration shifts the front message and
hands it to `sendMessage` (which re-pushes it onto the back of the queue
when the socket is not open — exactly as the source does). -/
def processMessageQueue (fuel : Nat) (w : WebSocketService) : WebSocketService :=
  match fuel with
  | 0 => w
  | Nat.succ f =>
    match w.messageQueue with
    | [] => w
    | m :: rest => processMessageQueue f (sendMessage { w with messageQueue := rest } m)

/-- `private scheduleReconnect(token)` (`websocket.ts` lines 193–204),
state part: increment the attempt counter, compute
`delay = reconnectInterval * 2 ** (attempts - 1)` and register the timer
(logged in `scheduled`).  The timer callback itself is `timerFire`. -/
def scheduleReconnect (w : WebSocketService) : WebSocketService :=
  let attempts := w.reconnectAttempts + 1
  let delay := reconnectInterval * 2 ^ (attempts - 1)
  { w with reconnectAttempts := attempts, scheduled := w.scheduled ++ [(attempts, delay)] }

/-- Result of the synchronous part of `connect(token)`: resolve
immediately when already open, reject with
`Error('Connection already in progress')` when a connect is in flight,
otherwise start a new socket. -/
inductive ConnectOutcome where
  | resolvedTrue
  | rejectedInProgress
  | started
  deriving DecidableEq, Repr

/-- Synchronous body of `connect(token)` (`websocket.ts` lines 74–99):
the guard chain and, in the started case, `isConnecting = true` plus
`new WebSocket(url)` (whose `readyState` is `CONNECTING`). -/
def connectStart (w : WebSocketService) : WebSocketService × ConnectOutcome :=
  if w.handle = Handle.OPEN then
    (w, ConnectOutcome.resolvedTrue)
  else if w.isConnecting then
    (w, ConnectOutcome.rejectedInProgress)
  else
    ({ w with isConnecting := true, handle := Handle.CONNECTING,
              connectCalls := w.connectCalls + 1 },
     ConnectOutcome.started)

/-- `ws.onopen` handler (`websocket.ts` lines 92–99): the transport has
turned `OPEN`; the handler clears `isConnecting`, resets
`reconnectAttempts` to 0, flushes the queue, and emits `connected`. -/
def onOpen (w : WebSocketService) : WebSocketService :=
  let w1 := { w with handle := Handle.OPEN, isConnecting := false, reconnectAttempts := 0 }
  let w2 := processMessageQueue w1.messageQueue.length w1
  { w2 with events := w2.events ++ [Event.connected] }

/-- `ws.onclose` handler (`websocket.ts` lines 101–110): clear
`isConnecting`, drop the socket, emit `disconnected{code, reason}`, and
schedule a reconnect when the close code is not 1000 and the attempt
budget is not exhausted. -/
def onClose (code : Nat) (reason : String) (w : WebSocketService) : WebSocketService :=
  let w1 := { w with isConnecting := false, handle := Handle.nullWs,
                     events := w.events ++ [Event.disconnected code reason] }
  if code ≠ 1000 ∧ w1.reconnectAttempts < maxReconnectAttempts then
    scheduleReconnect w1
  else
    w1

/-- `ws.onerror` handler (`websocket.ts` lines 112–117): clear
`isConnecting` and emit `error`. -/
def onError (w : WebSocketService) : WebSocketService :=
  { w with isConnecting := false, events := w.events ++ [Event.errorEvt] }

/-- The `setTimeout` callback registered by `scheduleReconnect`
(`websocket.ts` lines 199–203): call `connect(token)` again only while
`reconnectAttempts < maxReconnectAttempts`. -/
def timerFire (w : WebSocketService) : WebSocketService :=
  if w.reconnectAttempts < maxReconnectAttempts then
    (connectStart w).1
  else
    w

/-- `disconnect()` (`websocket.ts` lines 135–141): close the socket with
code 1000 and reason `'Client disconnect'` when one exists, drop it, and
set `reconnectAttempts` to the maximum to prevent reconnection. -/
def disconnect (w : WebSocketService) : WebSocketService :=
  let w1 :=
    if w.handle ≠ Handle.nullWs then
      { w with handle := Handle.nullWs,
               closeCalls := w.closeCalls ++ [(1000, "Client disconnect")] }
    else
      w
  { w1 with reconnectAttempts := maxReconnectAttempts }

/-- `get connectionState()` (`websocket.ts` lines 235–244). -/
def connectionState (w : WebSocketService) : String :=
  match w.handle with
  | Handle.nullWs => "disconnected"
  | Handle.CONNECTING => "connecting"
  | Handle.OPEN => "connected"
  | Handle.CLOSING => "closing"
  | Handle.CLOSED => "disconnected"

/-- `get isConnected()` (`websocket.ts` lines 231–233). -/
def isConnected (w : WebSocketService) : Bool :=
  w.handle = Handle.OPEN

/-- One full failed reconnect cycle, chaining the source's handlers: the
backoff timer fires (`websocket.ts` lines 199–203); while the attempt
budget is not exhausted this calls `connect(token)`, and the new
transport then fails: `onerror` fires followed by `onclose` with the
abnormal code 1006. -/
def failedRetryCycle (w : WebSocketService) : WebSocketService :=
  if w.reconnectAttempts < maxReconnectAttempts then
    onClose 1006 "" (onError (connectStart w).1)
  else
    w

end WebSocketService

/-! ### Listener registry (`websocket.ts` lines 206–229)

`eventListeners : Map<string, ((data: any) => void)[]>` is modelled as an
association list from event name to the ordered callback list.  A callback
is abstracted to an identifier together with whether invoking it throws:
the registry machinery of the source never looks inside a callback, so
this is the whole behaviour `on`/`off`/`emit` can observe. -/

/-- One registered callback: its identity and whether calling it throws. -/
structure Listener where
  id : Nat
  throws : Bool
  deriving DecidableEq, Repr

/-- The `eventListeners` map. -/
abbrev ListenerRegistry := List (String × List Listener)

/-- `on(event, callback)` (`websocket.ts` lines 207–212; `on` itself is
a reserved word in Lean): create the entry when absent, then push the
callback at the back of the list. -/
def onEvent (reg : ListenerRegistry) (event : String) (cb : Listener) : ListenerRegistry :=
  if reg.any (fun p => p.1 == event) then
    reg.map (fun p => if p.1 == event then (p.1, p.2 ++ [cb]) else p)
  else
    reg ++ [(event, [cb])]

/-- The callback list `eventListeners.get(event)`, defaulting to the
empty list when the event has no entry. -/
def getListeners (reg : ListenerRegistry) (event : String) : List Listener :=
  ((reg.find? (fun p => p.1 == event)).map Prod.snd).getD []

/-- `listeners.forEach(callback => callback(data))` inside `emit`
(`websocket.ts` line 227) under JavaScript semantics: callbacks run
synchronously in list order, and an exception thrown by a callback
propagates out of `forEach` immediately, so no later callback runs.
Returns the identifiers of the callbacks that were invoked (in
invocation order) and whether an exception escaped the dispatch. -/
def emitRun : List Listener → List Nat × Bool
  | [] => ([], false)
  | c :: rest =>
    if c.throws then
      ([c.id], true)
    else
      let r := emitRun rest
      (c.id :: r.1, r.2)

/-- `private emit(event, data)` (`websocket.ts` lines 224–229): look the
event up and run the callbacks; no entry means no callback runs. -/
def emit (reg : ListenerRegistry) (event : String) : List Nat × Bool :=
  match reg.find? (fun p => p.1 == event) with
  | some p => emitRun p.2
  | none => ([], false)

/-! ### Order-book data (`websocket.ts` lines 1–41)

JavaScript numbers are carried as exact rationals: the client never
computes with them, it only stores and returns them. -/

/-- `latest_price` field of `OrderBookData`. -/
structure LatestPrice where
  price : Rat
  source : String
  deriving DecidableEq, Repr

/-- `levels` field of `OrderBookData`. -/
structure LevelCounts where
  bid_levels : Nat
  ask_levels : Nat
  trade_count : Nat
  deriving DecidableEq, Repr

/-- `metadata` field of `OrderBookData`. -/
structure BookMetadata where
  total_entries : Nat
  has_trades : Bool
  book_depth : Nat
  deriving DecidableEq, Repr

/-- `interface OrderBookLevel` (`websocket.ts` lines 1–5). -/
structure OrderBookLevel where
  price : Rat
  size : Rat
  level : Nat
  deriving DecidableEq, Repr

/-- `interface OrderBookData` (`websocket.ts` lines 7–33). -/
structure OrderBookData where
  symbol : String
  timestamp : String
  tick_id : String
  is_indicative : Bool
  best_bid : Rat
  best_ask : Rat
  mid_price : Rat
  spread : Rat
  spread_bps : Rat
  bids : List OrderBookLevel
  asks : List OrderBookLevel
  latest_price : LatestPrice
  levels : LevelCounts
  metadata : BookMetadata
  deriving DecidableEq, Repr

/-- `interface OrderBookMessage` (`websocket.ts` lines 35–41); the
`type` discriminator is fixed to `"orderbook"` and left implicit. -/
structure OrderBookMessage where
  symbol : String
  request_id : String
  data : OrderBookData
  timestamp : String
  deriving DecidableEq, Repr

/-! ### The zustand store `useWebSocketStore` (`src/unnamed/part_000`)

`orderBookData : Record<string, OrderBookData>` is modelled as an
association list with JavaScript-object key semantics: setting an
existing key overwrites it in place, setting a fresh key appends it, and
`delete` removes the key. -/

/-- `\x7b...record, [k]: v\x7d`: overwrite the entry for `k` when present,
otherwise append `(k, v)`. -/
def recSet (r : List (String × OrderBookData)) (k : String) (v : OrderBookData) :
    List (String × OrderBookData) :=
  if r.any (fun p => p.1 == k) then
    r.map (fun p => if p.1 == k then (k, v) else p)
  else
    r ++ [(k, v)]

/-- `delete record[k]`. -/
def recDelete (r : List (String × OrderBookData)) (k : String) :
    List (String × OrderBookData) :=
  r.filter (fun p => !(p.1 == k))

/-- `record[k]`, absent keys reading as `none`. -/
def recGet (r : List (String × OrderBookData)) (k : String) : Option OrderBookData :=
  (r.find? (fun p => p.1 == k)).map Prod.snd

/-- State of the `useWebSocketStore` zustand store (`part_000` lines
5–19 / 24–30).  `wsService` holds the service instance or `null`. -/
structure WebSocketStore where
  wsService : Option WebSocketService
  orderBookData : List (String × OrderBookData)
  lastUpdate : Nat
  isConnected : Bool
  connectionError : Option String
  currentSymbol : Option String
  deriving DecidableEq, Repr

namespace WebSocketStore

/-- The `'orderbook'` event listener (`part_000` lines 81–92): store
`message.data` keyed by `message.data.symbol` (pure overwrite), stamp
`lastUpdate` with the current time, clear `connectionError`. -/
def onOrderbook (s : WebSocketStore) (message : OrderBookMessage) (now : Nat) :
    WebSocketStore :=
  { s with orderBookData := recSet s.orderBookData message.data.symbol message.data,
           lastUpdate := now,
           connectionError := none }

/-- The `'disconnected'` event listener (`part_000` lines 65–72). -/
def onDisconnected (s : WebSocketStore) : WebSocketStore :=
  { s with isConnected := false, orderBookData := [], lastUpdate := 0,
           currentSymbol := none }

/-- `subscribeToSymbol(symbol, levels = 5)` (`part_000` lines 127–155):
return with `connectionError` set when there is no connected service;
otherwise clear the error, and when a different symbol is currently
subscribed first `unsubscribe` it and delete its cache entry, then
`subscribe` the new symbol and record it as current. -/
def subscribeToSymbol (s : WebSocketStore) (symbol : String) (levels : Nat := 5) :
    WebSocketStore :=
  match s.wsService with
  | none => { s with connectionError := some "WebSocket not connected" }
  | some ws =>
    if ws.handle ≠ Handle.OPEN then
      { s with connectionError := some "WebSocket not connected" }
    else
      let step :=
        match s.currentSymbol with
        | some old =>
          if old ≠ symbol then
            (WebSocketService.unsubscribe ws old, recDelete s.orderBookData old)
          else
            (ws, s.orderBookData)
        | none => (ws, s.orderBookData)
      { s with connectionError := none,
               wsService := some (WebSocketService.subscribe step.1 symbol levels),
               orderBookData := step.2,
               currentSymbol := some symbol }

/-- `unsubscribeFromSymbol(symbol)` (`part_000` lines 157–174): no-op
without a connected service; otherwise `unsubscribe`, delete the
symbol's cache entry, and clear `currentSymbol` only when it matches. -/
def unsubscribeFromSymbol (s : WebSocketStore) (symbol : String) : WebSocketStore :=
  match s.wsService with
  | none => s
  | some ws =>
    if ws.handle ≠ Handle.OPEN then
      s
    else
      { s with wsService := some (WebSocketService.unsubscribe ws symbol),
               orderBookData := recDelete s.orderBookData symbol,
               currentSymbol := if s.currentSymbol = some symbol then none
                                else s.currentSymbol }

/-- `disconnect` of the store (`part_000` lines 111–125): call
`wsService.disconnect()` and drop the instance, then reset every store
field. -/
def disconnect (s : WebSocketStore) : WebSocketStore :=
  { s with wsService := none, isConnected := false, orderBookData := [],
           lastUpdate := 0, currentSymbol := none, connectionError := none }

/-- `getOrderBookForSymbol(symbol)` (`part_000` lines 176–179):
`state.orderBookData[symbol] || null`; stored entries are objects and
hence truthy, so this is exactly the key lookup with `null` for a
missing key. -/
def getOrderBookForSymbol (s : WebSocketStore) (symbol : String) : Option OrderBookData :=
  recGet s.orderBookData symbol

end WebSocketStore

/-! ### Sample states used by witnesses -/

/-- A freshly connected service: open transport, no pending work. -/
def wsOpen0 : WebSocketService :=
  { handle := Handle.OPEN, isConnecting := false, reconnectAttempts := 0,
    messageQueue := [], sent := [], events := [], scheduled := [],
    connectCalls := 0, closeCalls := [] }

/-- A disconnected service (`this.ws === null`). -/
def wsDisc0 : WebSocketService :=
  { wsOpen0 with handle := Handle.nullWs }

/-- A service with a connect in flight. -/
def wsInflight0 : WebSocketService :=
  { wsOpen0 with handle := Handle.CONNECTING, isConnecting := true }

/-- A minimal concrete order-book payload for a symbol. -/
def mkOBD (sym time : String) (bb ba : Rat) : OrderBookData :=
  { symbol := sym, timestamp := time, tick_id := "t1", is_indicative := false,
    best_bid := bb, best_ask := ba, mid_price := (bb + ba) / 2,
    spread := ba - bb, spread_bps := 1,
    bids := [{ price := bb, size := 1, level := 1 }],
    asks := [{ price := ba, size := 1, level := 1 }],
    latest_price := { price := bb, source := "firm" },
    levels := { bid_levels := 1, ask_levels := 1, trade_count := 0 },
    metadata := { total_entries := 2, has_trades := false, book_depth := 1 } }

/-- A concrete `orderbook` frame carrying `mkOBD`. -/
def mkFrame (sym time : String) (bb ba : Rat) : OrderBookMessage :=
  { symbol := sym, request_id := "r1", data := mkOBD sym time bb ba, timestamp := time }

/-- A connected store currently subscribed to `"EUR/USD"`. -/
def storeOpen0 : WebSocketStore :=
  { wsService := some wsOpen0,
    orderBookData := [("EUR/USD", mkOBD "EUR/USD" "09:00:00" 1 2)],
    lastUpdate := 1, isConnected := true, connectionError := none,
    currentSymbol := some "EUR/USD" }

/-- A store whose service exists but is disconnected. -/
def storeDisc0 : WebSocketStore :=
  { wsService := some wsDisc0, orderBookData := [], lastUpdate := 0,
    isConnected := false, connectionError := none, currentSymbol := none }

/-- A connected service with three commands waiting in the queue. -/
def wsQueued0 : WebSocketService :=
  { wsOpen0 with messageQueue :=
      [Msg.subscribe "EUR/USD" 5, Msg.unsubscribe "EUR/USD", Msg.subscribe "GBP/USD" 5] }

/-- A disconnected service with two queued commands. -/
def wsQueuedClosed0 : WebSocketService :=
  { wsDisc0 with messageQueue := [Msg.subscribe "EUR/USD" 5, Msg.unsubscribe "EUR/USD"] }

/-- The snapshot-cache key invariant: every key maps to a snapshot whose
own `symbol` field equals that key. -/
def cacheInv (s : WebSocketStore) : Prop :=
  ∀ p ∈ s.orderBookData, p.2.symbol = p.1

/-! ## Helper lemmas -/

theorem find_map_replace (r : List (String × OrderBookData)) (k : String)
    (v : OrderBookData) (h : r.any (fun p => p.1 == k) = true) :
    List.find? (fun p => p.1 == k) (r.map fun p => if p.1 == k then (k, v) else p)
      = some (k, v) := by
  induction r with
  | nil => simp at h
  | cons a r ih =>
    by_cases ha : a.1 = k
    · rw [List.map_cons, if_pos (beq_iff_eq.mpr ha),
        List.find?_cons_of_pos _ (by simp)]
    · have hb : (a.1 == k) = false := beq_eq_false_iff_ne.mpr ha
      have h' : r.any (fun p => p.1 == k) = true := by
        simpa [List.any_cons, hb] using h
      rw [List.map_cons, if_neg (by simp [hb]),
        List.find?_cons_of_neg _ (by simp [hb])]
      exact ih h'

theorem find_append_fresh (r : List (String × OrderBookData)) (k : String)
    (v : OrderBookData) (h : r.any (fun p => p.1 == k) = false) :
    List.find? (fun p => p.1 == k) (r ++ [(k, v)]) = some (k, v) := by
  induction r with
  | nil => simp [List.find?]
  | cons a r ih =>
    simp only [List.any_cons, Bool.or_eq_false_iff] at h
    rw [List.cons_append, List.find?_cons_of_neg _ (by simp [h.1])]
    exact ih h.2

theorem recGet_recSet (r : List (String × OrderBookData)) (k : String) (v : OrderBookData) :
    recGet (recSet r k v) k = some v := by
  unfold recGet recSet
  split
  · next hany => rw [find_map_replace r k v hany]; rfl
  · next hany => rw [find_append_fresh r k v (Bool.eq_false_iff.mpr hany)]; rfl

theorem recGet_recDelete (r : List (String × OrderBookData)) (k : String) :
    recGet (recDelete r k) k = none := by
  unfold recGet recDelete
  induction r with
  | nil => rfl
  | cons a r ih =>
    by_cases h : a.1 = k
    · rw [List.filter_cons_of_neg (by simp [beq_iff_eq.mpr h])]
      exact ih
    · have hb : (a.1 == k) = false := beq_eq_false_iff_ne.mpr h
      rw [List.filter_cons_of_pos (by simp [hb]),
        List.find?_cons_of_neg _ (by simp [hb])]
      exact ih

theorem recGet_eq_none (r : List (String × OrderBookData)) (k : String)
    (h : ∀ p ∈ r, p.1 ≠ k) : recGet r k = none := by
  induction r with
  | nil => rfl
  | cons a r ih =>
    have hb : (a.1 == k) = false :=
      beq_eq_false_iff_ne.mpr (h a (List.mem_cons_self a r))
    unfold recGet
    rw [List.find?_cons_of_neg _ (by simp [hb])]
    exact ih fun p hp => h p (List.mem_cons_of_mem a hp)

theorem mem_recSet (r : List (String × OrderBookData)) (k : String) (v : OrderBookData)
    (p : String × OrderBookData) (hp : p ∈ recSet r k v) : p ∈ r ∨ p = (k, v) := by
  unfold recSet at hp
  split at hp
  · rcases List.mem_map.mp hp with ⟨q, hq, hpq⟩
    by_cases h : q.1 = k
    · right
      rw [← hpq]
      simp [beq_iff_eq.mpr h]
    · left
      have hb : (q.1 == k) = false := beq_eq_false_iff_ne.mpr h
      rw [← hpq]
      simpa [hb] using hq
  · rcases List.mem_append.mp hp with h | h
    · exact Or.inl h
    · exact Or.inr (List.mem_singleton.mp h)

theorem mem_recDelete (r : List (String × OrderBookData)) (k : String)
    (p : String × OrderBookData) (hp : p ∈ recDelete r k) : p ∈ r :=
  List.mem_of_mem_filter hp

theorem emitRun_no_throw (cbs : List Listener) (h : ∀ x ∈ cbs, x.throws = false) :
    emitRun cbs = (cbs.map Listener.id, false) := by
  induction cbs with
  | nil => rfl
  | cons c rest ih =>
    have hc : c.throws = false := h c (List.mem_cons_self c rest)
    simp [emitRun, hc, ih fun x hx => h x (List.mem_cons_of_mem c hx)]

theorem emitRun_abort (pre : List Listener) (c : Listener) (post : List Listener)
    (hpre : ∀ x ∈ pre, x.throws = false) (hc : c.throws = true) :
    emitRun (pre ++ c :: post) = (pre.map Listener.id ++ [c.id], true) := by
  induction pre with
  | nil => simp [emitRun, hc]
  | cons a pre ih =>
    have ha : a.throws = false := hpre a (List.mem_cons_self a pre)
    simp [emitRun, ha, ih fun x hx => hpre x (List.mem_cons_of_mem a hx)]

theorem getListeners_onEvent (reg : ListenerRegistry) (event : String) (cb : Listener) :
    getListeners (onEvent reg event cb) event = getListeners reg event ++ [cb] := by
  induction reg with
  | nil => simp [onEvent, getListeners, List.find?]
  | cons a r ih =>
    by_cases h : a.1 = event
    · have hany : (a :: r).any (fun p => p.1 == event) = true := by
        simp [List.any_cons, beq_iff_eq.mpr h]
      unfold onEvent
      rw [if_pos hany]
      unfold getListeners
      rw [List.map_cons, if_pos (beq_iff_eq.mpr h),
        List.find?_cons_of_pos _ (by simp [h]),
        List.find?_cons_of_pos _ (by simp [h])]
      rfl
    · have hb : (a.1 == event) = false := beq_eq_false_iff_ne.mpr h
      have hstep : onEvent (a :: r) event cb = a :: onEvent r event cb := by
        unfold onEvent
        by_cases hc : r.any (fun p => p.1 == event) = true
        · rw [if_pos (by simp [List.any_cons, hb, hc]), if_pos hc, List.map_cons,
            if_neg (by simp [hb])]
        · have hcf : r.any (fun p => p.1 == event) = false := Bool.eq_false_iff.mpr hc
          rw [if_neg (by simp [List.any_cons, hb, hcf]), if_neg hc, List.cons_append]
      rw [hstep]
      unfold getListeners
      rw [List.find?_cons_of_neg _ (by simp [hb]),
        List.find?_cons_of_neg _ (by simp [hb])]
      exact ih

theorem sendMessage_reconnectAttempts (w : WebSocketService) (m : Msg) :
    (WebSocketService.sendMessage w m).reconnectAttempts = w.reconnectAttempts := by
  unfold WebSocketService.sendMessage
  split <;> rfl

theorem processMessageQueue_reconnectAttempts (fuel : Nat) :
    ∀ w : WebSocketService,
      (WebSocketService.processMessageQueue fuel w).reconnectAttempts
        = w.reconnectAttempts := by
  induction fuel with
  | zero => intro w; rfl
  | succ f ih =>
    intro w
    unfold WebSocketService.processMessageQueue
    split
    · rfl
    · rw [ih, sendMessage_reconnectAttempts]

theorem processMessageQueue_drains (q : List Msg) :
    ∀ w : WebSocketService, w.handle = Handle.OPEN → w.messageQueue = q →
      WebSocketService.processMessageQueue q.length w
        = { w with sent := w.sent ++ q, messageQueue := [] } := by
  induction q with
  | nil =>
    intro w hopen hq
    obtain ⟨h, ic, ra, mq, sn, ev, sch, cc, clc⟩ := w
    cases hopen
    cases hq
    simp [WebSocketService.processMessageQueue]
  | cons m rest ih =>
    intro w hopen hq
    obtain ⟨h, ic, ra, mq, sn, ev, sch, cc, clc⟩ := w
    cases hopen
    cases hq
    have step : WebSocketService.processMessageQueue (m :: rest).length
          ⟨Handle.OPEN, ic, ra, m :: rest, sn, ev, sch, cc, clc⟩
        = WebSocketService.processMessageQueue rest.length
          ⟨Handle.OPEN, ic, ra, rest, sn ++ [m], ev, sch, cc, clc⟩ := rfl
    rw [step, ih _ rfl rfl]
    simp

/-! ## Claim theorems -/

/-- C6: for every attempt count, the scheduled reconnect delay equals
`reconnectInterval × 2^(attempt−1)` exactly (deterministic doubling, no
jitter); the attempt counter is incremented before each scheduled retry
and reset to 0 on successful open; and an attempt count of 6 never
occurs: every transition keeps the counter at most 5 and every scheduled
attempt number lies in [1, 5]. -/
theorem backoff_policy (w : WebSocketService) (hw : w.reconnectAttempts ≤ 5) :
    ((WebSocketService.scheduleReconnect w).reconnectAttempts = w.reconnectAttempts + 1
      ∧ (WebSocketService.scheduleReconnect w).scheduled
          = w.scheduled ++ [(w.reconnectAttempts + 1,
              reconnectInterval * 2 ^ (w.reconnectAttempts + 1 - 1))])
  ∧ (WebSocketService.onOpen w).reconnectAttempts = 0
  ∧ (∀ code reason, (WebSocketService.onClose code reason w).reconnectAttempts ≤ 5
      ∧ ∀ p ∈ (WebSocketService.onClose code reason w).scheduled,
          p ∈ w.scheduled
            ∨ (1 ≤ p.1 ∧ p.1 ≤ 5 ∧ p.2 = reconnectInterval * 2 ^ (p.1 - 1)))
  ∧ (WebSocketService.timerFire w).reconnectAttempts ≤ 5
  ∧ (WebSocketService.onError w).reconnectAttempts ≤ 5
  ∧ (WebSocketService.disconnect w).reconnectAttempts = maxReconnectAttempts
  ∧ ((WebSocketService.connectStart w).1).reconnectAttempts ≤ 5 := by
  refine ⟨⟨rfl, rfl⟩, ?_, ?_, ?_, ?_, ?_, ?_⟩
  · show (WebSocketService.processMessageQueue _ _).reconnectAttempts = 0
    rw [processMessageQueue_reconnectAttempts]
  · intro code reason
    unfold WebSocketService.onClose
    dsimp only
    split
    · next hcond =>
      refine ⟨Nat.succ_le_of_lt hcond.2, ?_⟩
      intro p hp
      rcases List.mem_append.mp hp with h | h
      · exact Or.inl h
      · rcases List.mem_singleton.mp h with rfl
        exact Or.inr ⟨Nat.succ_le_succ (Nat.zero_le _), Nat.succ_le_of_lt hcond.2, rfl⟩
    · exact ⟨hw, fun p hp => Or.inl hp⟩
  · unfold WebSocketService.timerFire WebSocketService.connectStart
    split
    · split
      · exact hw
      · split <;> exact hw
    · exact hw
  · exact hw
  · rfl
  · unfold WebSocketService.connectStart
    split
    · exact hw
    · split <;> exact hw

/-- C6 witness at a concrete connected service. -/
theorem backoff_policy_witness :
    (WebSocketService.scheduleReconnect wsOpen0).scheduled
        = wsOpen0.scheduled ++ [(wsOpen0.reconnectAttempts + 1,
            reconnectInterval * 2 ^ (wsOpen0.reconnectAttempts + 1 - 1))]
  ∧ (WebSocketService.onOpen wsOpen0).reconnectAttempts = 0 :=
  ⟨(backoff_policy wsOpen0 (by decide)).1.2, (backoff_policy wsOpen0 (by decide)).2.1⟩

/-- C1: from a connected client with attempt counter 0, a transport
close with code 1006 schedules exactly one reconnect at delay
`reconnectInterval × 1`; under repeated connection failures the attempt
counter climbs to the cap of 5 with the scheduled delays
`base×1, …, base×16`, after which the client stops retrying (a further
failed-retry cycle and a further timer fire are both no-ops), settles
into the `"disconnected"` connection state, and the last emitted event
is a `disconnected` event. -/
theorem reconnect_lifecycle (w : WebSocketService) (reason : String)
    (hopen : w.handle = Handle.OPEN) (hatt : w.reconnectAttempts = 0)
    (hsch : w.scheduled = []) (hev : w.events = []) :
    (WebSocketService.onClose 1006 reason w).scheduled = [(1, reconnectInterval * 1)]
  ∧ (let w5 := WebSocketService.failedRetryCycle (WebSocketService.failedRetryCycle
        (WebSocketService.failedRetryCycle (WebSocketService.failedRetryCycle
          (WebSocketService.onClose 1006 reason w))));
     w5.scheduled = [(1, 1000), (2, 2000), (3, 4000), (4, 8000), (5, 16000)]
     ∧ w5.reconnectAttempts = maxReconnectAttempts
     ∧ WebSocketService.connectionState w5 = "disconnected"
     ∧ w5.events = [Event.disconnected 1006 reason,
          Event.errorEvt, Event.disconnected 1006 "",
          Event.errorEvt, Event.disconnected 1006 "",
          Event.errorEvt, Event.disconnected 1006 "",
          Event.errorEvt, Event.disconnected 1006 ""]
     ∧ WebSocketService.failedRetryCycle w5 = w5
     ∧ WebSocketService.timerFire w5 = w5) := by
  obtain ⟨h, ic, ra, q, sn, ev, sch, cc, clc⟩ := w
  cases hopen
  cases hatt
  cases hsch
  cases hev
  have e1 : WebSocketService.onClose 1006 reason
        ⟨Handle.OPEN, ic, 0, q, sn, [], [], cc, clc⟩
      = ⟨Handle.nullWs, false, 1, q, sn, [Event.disconnected 1006 reason],
         [(1, 1000)], cc, clc⟩ := rfl
  have e2 : WebSocketService.failedRetryCycle
        ⟨Handle.nullWs, false, 1, q, sn, [Event.disconnected 1006 reason],
         [(1, 1000)], cc, clc⟩
      = ⟨Handle.nullWs, false, 2, q, sn,
         [Event.disconnected 1006 reason, Event.errorEvt, Event.disconnected 1006 ""],
         [(1, 1000), (2, 2000)], cc + 1, clc⟩ := rfl
  have e3 : WebSocketService.failedRetryCycle
        ⟨Handle.nullWs, false, 2, q, sn,
         [Event.disconnected 1006 reason, Event.errorEvt, Event.disconnected 1006 ""],
         [(1, 1000), (2, 2000)], cc + 1, clc⟩
      = ⟨Handle.nullWs, false, 3, q, sn,
         [Event.disconnected 1006 reason, Event.errorEvt, Event.disconnected 1006 "",
          Event.errorEvt, Event.disconnected 1006 ""],
         [(1, 1000), (2, 2000), (3, 4000)], cc + 1 + 1, clc⟩ := rfl
  have e4 : WebSocketService.failedRetryCycle
        ⟨Handle.nullWs, false, 3, q, sn,
         [Event.disconnected 1006 reason, Event.errorEvt, Event.disconnected 1006 "",
          Event.errorEvt, Event.disconnected 1006 ""],
         [(1, 1000), (2, 2000), (3, 4000)], cc + 1 + 1, clc⟩
      = ⟨Handle.nullWs, false, 4, q, sn,
         [Event.disconnected 1006 reason, Event.errorEvt, Event.disconnected 1006 "",
          Event.errorEvt, Event.disconnected 1006 "", Event.errorEvt, Event.disconnected 1006 ""],
         [(1, 1000), (2, 2000), (3, 4000), (4, 8000)], cc + 1 + 1 + 1, clc⟩ := rfl
  have e5 : WebSocketService.failedRetryCycle
        ⟨Handle.nullWs, false, 4, q, sn,
         [Event.disconnected 1006 reason, Event.errorEvt, Event.disconnected 1006 "",
          Event.errorEvt, Event.disconnected 1006 "", Event.errorEvt, Event.disconnected 1006 ""],
         [(1, 1000), (2, 2000), (3, 4000), (4, 8000)], cc + 1 + 1 + 1, clc⟩
      = ⟨Handle.nullWs, false, 5, q, sn,
         [Event.disconnected 1006 reason, Event.errorEvt, Event.disconnected 1006 "",
          Event.errorEvt, Event.disconnected 1006 "", Event.errorEvt, Event.disconnected 1006 "",
          Event.errorEvt, Event.disconnected 1006 ""],
         [(1, 1000), (2, 2000), (3, 4000), (4, 8000), (5, 16000)],
         cc + 1 + 1 + 1 + 1, clc⟩ := rfl
  rw [e1, e2, e3, e4, e5]
  exact ⟨rfl, rfl, rfl, rfl, rfl, rfl, rfl⟩

/-- C1 witness at a concrete connected service. -/
theorem reconnect_lifecycle_witness :
    (WebSocketService.onClose 1006 "net down" wsOpen0).scheduled
        = [(1, reconnectInterval * 1)]
  ∧ (let w5 := WebSocketService.failedRetryCycle (WebSocketService.failedRetryCycle
        (WebSocketService.failedRetryCycle (WebSocketService.failedRetryCycle
          (WebSocketService.onClose 1006 "net down" wsOpen0))));
     w5.scheduled = [(1, 1000), (2, 2000), (3, 4000), (4, 8000), (5, 16000)]
     ∧ w5.reconnectAttempts = maxReconnectAttempts
     ∧ WebSocketService.connectionState w5 = "disconnected"
     ∧ w5.events = [Event.disconnected 1006 "net down",
          Event.errorEvt, Event.disconnected 1006 "",
          Event.errorEvt, Event.disconnected 1006 "",
          Event.errorEvt, Event.disconnected 1006 "",
          Event.errorEvt, Event.disconnected 1006 ""]
     ∧ WebSocketService.failedRetryCycle w5 = w5
     ∧ WebSocketService.timerFire w5 = w5) :=
  reconnect_lifecycle wsOpen0 "net down" rfl rfl rfl rfl

/-- C7: `disconnect()` suppresses further automatic reconnection (a
scheduled backoff timer that fires afterwards performs nothing), closes
the transport with code 1000 when one exists, is idempotent, and after
`disconnect()` plus a transport close with code 1000 no reconnect is
scheduled and `connectionState` is `"disconnected"`. -/
theorem disconnect_props (w : WebSocketService) (reason : String) :
    (w.handle ≠ Handle.nullWs →
      (WebSocketService.disconnect w).closeCalls
        = w.closeCalls ++ [(1000, "Client disconnect")])
  ∧ WebSocketService.disconnect (WebSocketService.disconnect w)
      = WebSocketService.disconnect w
  ∧ WebSocketService.timerFire (WebSocketService.disconnect w)
      = WebSocketService.disconnect w
  ∧ (WebSocketService.disconnect w).connectCalls = w.connectCalls
  ∧ (WebSocketService.onClose 1000 reason (WebSocketService.disconnect w)).scheduled
      = w.scheduled
  ∧ WebSocketService.connectionState
      (WebSocketService.onClose 1000 reason (WebSocketService.disconnect w))
      = "disconnected" := by
  obtain ⟨h, ic, ra, q, sn, ev, sch, cc, clc⟩ := w
  cases h <;>
    simp [WebSocketService.disconnect, WebSocketService.timerFire,
      WebSocketService.connectStart, WebSocketService.onClose,
      WebSocketService.scheduleReconnect, WebSocketService.connectionState,
      maxReconnectAttempts]

/-- C7 witness at a concrete connected service. -/
theorem disconnect_props_witness :
    (wsOpen0.handle ≠ Handle.nullWs →
      (WebSocketService.disconnect wsOpen0).closeCalls
        = wsOpen0.closeCalls ++ [(1000, "Client disconnect")])
  ∧ WebSocketService.disconnect (WebSocketService.disconnect wsOpen0)
      = WebSocketService.disconnect wsOpen0
  ∧ WebSocketService.timerFire (WebSocketService.disconnect wsOpen0)
      = WebSocketService.disconnect wsOpen0
  ∧ (WebSocketService.disconnect wsOpen0).connectCalls = wsOpen0.connectCalls
  ∧ (WebSocketService.onClose 1000 "bye" (WebSocketService.disconnect wsOpen0)).scheduled
      = wsOpen0.scheduled
  ∧ WebSocketService.connectionState
      (WebSocketService.onClose 1000 "bye" (WebSocketService.disconnect wsOpen0))
      = "disconnected" :=
  disconnect_props wsOpen0 "bye"

/-- C3 amended: the outbound queue is strict FIFO — `sendMessage` while
not open appends at the back, and a flush with the transport open
removes and sends items from the front, in order, until the queue is
empty.  However, when a dequeued message cannot be sent (transport not
open), the failed item is appended at the BACK of the queue — behind
the remaining unsent items, not in original relative order — and the
loop continues instead of halting. -/
theorem message_queue_fifo (w : WebSocketService) (m : Msg) (rest : List Msg) :
    (w.handle ≠ Handle.OPEN →
      WebSocketService.sendMessage w m
        = { w with messageQueue := w.messageQueue ++ [m] })
  ∧ (w.handle = Handle.OPEN →
      WebSocketService.processMessageQueue w.messageQueue.length w
        = { w with sent := w.sent ++ w.messageQueue, messageQueue := [] })
  ∧ (w.handle ≠ Handle.OPEN → w.messageQueue = m :: rest →
      (WebSocketService.processMessageQueue 1 w).messageQueue = rest ++ [m]
      ∧ (WebSocketService.processMessageQueue 1 w).sent = w.sent) := by
  refine ⟨?_, ?_, ?_⟩
  · intro hne
    simp [WebSocketService.sendMessage, hne]
  · intro hopen
    exact processMessageQueue_drains w.messageQueue w hopen rfl
  · intro hne hq
    obtain ⟨h, ic, ra, mq, sn, ev, sch, cc, clc⟩ := w
    cases hq
    constructor <;>
      simp [WebSocketService.processMessageQueue, WebSocketService.sendMessage,
        hne]

/-- C3 witness: enqueueing while disconnected appends at the back, and a
flush of three queued commands over an open transport sends all three in
original order. -/
theorem message_queue_fifo_witness :
    WebSocketService.sendMessage wsDisc0 (Msg.subscribe "EUR/USD" 5)
        = { wsDisc0 with
            messageQueue := wsDisc0.messageQueue ++ [Msg.subscribe "EUR/USD" 5] }
  ∧ WebSocketService.processMessageQueue wsQueued0.messageQueue.length wsQueued0
        = { wsQueued0 with
            sent := wsQueued0.sent ++ wsQueued0.messageQueue, messageQueue := [] } :=
  ⟨(message_queue_fifo wsDisc0 (Msg.subscribe "EUR/USD" 5) []).1 (by decide),
   (message_queue_fifo wsQueued0 (Msg.subscribe "EUR/USD" 5) []).2.1 rfl⟩

/-- C3 counterexample: with the transport not open and queue
`[subscribe, unsubscribe]`, one loop iteration leaves the queue as
`[unsubscribe, subscribe]` — the failed item is re-enqueued BEHIND the
remaining item, not in the original relative order — and a second
iteration runs (rotating the queue back), so the flush does not halt at
the failed send. -/
theorem flush_failure_counterexample :
    (WebSocketService.processMessageQueue 1 wsQueuedClosed0).messageQueue
        = [Msg.unsubscribe "EUR/USD", Msg.subscribe "EUR/USD" 5]
  ∧ [Msg.unsubscribe "EUR/USD", Msg.subscribe "EUR/USD" 5]
        ≠ [Msg.subscribe "EUR/USD" 5, Msg.unsubscribe "EUR/USD"]
  ∧ (WebSocketService.processMessageQueue 2 wsQueuedClosed0).messageQueue
        = [Msg.subscribe "EUR/USD" 5, Msg.unsubscribe "EUR/USD"]
  ∧ (WebSocketService.processMessageQueue 2 wsQueuedClosed0).sent = [] := by
  decide

/-- C5 amended: service-level `subscribe`/`unsubscribe` issued while the
transport is not open append exactly the corresponding command to the
outbound queue (nothing is sent before the transport reports open), and
`subscribe("EUR/USD", 5)` enqueues exactly the wire message
`\x7b"type":"subscribe","symbol":"EUR/USD","levels":5\x7d`.  However, the
store-level `subscribeToSymbol` issued while not connected is rejected:
it sets `connectionError` and issues no command. -/
theorem offline_commands_queued (w : WebSocketService) (s : WebSocketStore)
    (ws : WebSocketService) (sym : String) (d : Nat)
    (hw : w.handle ≠ Handle.OPEN) :
    (WebSocketService.subscribe w sym d).messageQueue
        = w.messageQueue ++ [Msg.subscribe sym d]
  ∧ (WebSocketService.subscribe w sym d).sent = w.sent
  ∧ (WebSocketService.unsubscribe w sym).messageQueue
        = w.messageQueue ++ [Msg.unsubscribe sym]
  ∧ (WebSocketService.unsubscribe w sym).sent = w.sent
  ∧ wireFormat (Msg.subscribe "EUR/USD" 5)
        = "\x7b\"type\":\"subscribe\",\"symbol\":\"EUR/USD\",\"levels\":5\x7d"
  ∧ (s.wsService = some ws → ws.handle ≠ Handle.OPEN →
      WebSocketStore.subscribeToSymbol s sym d
        = { s with connectionError := some "WebSocket not connected" }) := by
  refine ⟨?_, ?_, ?_, ?_, by decide, ?_⟩
  · simp [WebSocketService.subscribe, WebSocketService.sendMessage, hw]
  · simp [WebSocketService.subscribe, WebSocketService.sendMessage, hw]
  · simp [WebSocketService.unsubscribe, WebSocketService.sendMessage, hw]
  · simp [WebSocketService.unsubscribe, WebSocketService.sendMessage, hw]
  · intro hs hws
    unfold WebSocketStore.subscribeToSymbol
    rw [hs]
    simp [hws]

/-- C5 witness: a disconnected service enqueues the exact subscribe
command, and the disconnected store rejects. -/
theorem offline_commands_queued_witness :
    (WebSocketService.subscribe wsDisc0 "EUR/USD" 5).messageQueue
        = wsDisc0.messageQueue ++ [Msg.subscribe "EUR/USD" 5]
  ∧ WebSocketStore.subscribeToSymbol storeDisc0 "EUR/USD" 5
        = { storeDisc0 with connectionError := some "WebSocket not connected" } :=
  ⟨(offline_commands_queued wsDisc0 storeDisc0 wsDisc0 "EUR/USD" 5 (by decide)).1,
   (offline_commands_queued wsDisc0 storeDisc0 wsDisc0 "EUR/USD" 5
      (by decide)).2.2.2.2.2 rfl (by decide)⟩

/-- C5 counterexample: `subscribeToSymbol("EUR/USD", 5)` issued on the
store while the client is not connected does NOT append the subscribe
command to the outbound queue — it is rejected with a connection error,
the queue stays empty and no current symbol is recorded. -/
theorem offline_subscribe_rejected_counterexample :
    (WebSocketStore.subscribeToSymbol storeDisc0 "EUR/USD" 5).connectionError
        = some "WebSocket not connected"
  ∧ ((WebSocketStore.subscribeToSymbol storeDisc0 "EUR/USD" 5).wsService.map
        WebSocketService.messageQueue) = some []
  ∧ (WebSocketStore.subscribeToSymbol storeDisc0 "EUR/USD" 5).currentSymbol = none := by
  decide

/-- C8: `connect(token)` while a connect is already in flight rejects
immediately with the concurrent-connect error and changes nothing (the
call is not queued); `connect(token)` while already connected resolves
successfully as a no-op. -/
theorem connect_guard (w : WebSocketService) :
    (w.handle = Handle.OPEN →
      WebSocketService.connectStart w = (w, WebSocketService.ConnectOutcome.resolvedTrue))
  ∧ (w.handle ≠ Handle.OPEN → w.isConnecting = true →
      WebSocketService.connectStart w
        = (w, WebSocketService.ConnectOutcome.rejectedInProgress)) := by
  constructor
  · intro hopen
    simp [WebSocketService.connectStart, hopen]
  · intro hne hconn
    simp [WebSocketService.connectStart, hne, hconn]

/-- C4: for a connected client currently subscribed to symbol A,
subscribing to a different symbol B sends, in order, `unsubscribe A`
then `subscribe B depth`; immediately after the switch the snapshot for
A is absent and the current symbol is B.  Re-subscribing to the same
symbol with a different depth re-sends `subscribe` with no intervening
`unsubscribe`. -/
theorem subscribe_switch (s : WebSocketStore) (ws : WebSocketService)
    (A B : String) (d d2 : Nat)
    (hs : s.wsService = some ws) (hopen : ws.handle = Handle.OPEN)
    (hcur : s.currentSymbol = some A) (hne : A ≠ B) :
    ((WebSocketStore.subscribeToSymbol s B d).wsService.map WebSocketService.sent)
        = some (ws.sent ++ [Msg.unsubscribe A, Msg.subscribe B d])
  ∧ WebSocketStore.getOrderBookForSymbol (WebSocketStore.subscribeToSymbol s B d) A
        = none
  ∧ (WebSocketStore.subscribeToSymbol s B d).currentSymbol = some B
  ∧ ((WebSocketStore.subscribeToSymbol s A d2).wsService.map WebSocketService.sent)
        = some (ws.sent ++ [Msg.subscribe A d2]) := by
  refine ⟨?_, ?_, ?_, ?_⟩
  · simp [WebSocketStore.subscribeToSymbol, hs, hcur, hopen, hne,
      WebSocketService.subscribe, WebSocketService.unsubscribe,
      WebSocketService.sendMessage]
  · simp [WebSocketStore.subscribeToSymbol, WebSocketStore.getOrderBookForSymbol,
      hs, hcur, hopen, hne, recGet_recDelete,
      WebSocketService.subscribe, WebSocketService.unsubscribe,
      WebSocketService.sendMessage]
  · simp [WebSocketStore.subscribeToSymbol, hs, hcur, hopen, hne,
      WebSocketService.subscribe, WebSocketService.unsubscribe,
      WebSocketService.sendMessage]
  · simp [WebSocketStore.subscribeToSymbol, hs, hcur, hopen,
      WebSocketService.subscribe, WebSocketService.sendMessage]

/-- C4 witness: switching `"EUR/USD"` → `"GBP/USD"` on a concrete
connected store, and re-subscribing `"EUR/USD"` at depth 10. -/
theorem subscribe_switch_witness :
    ((WebSocketStore.subscribeToSymbol storeOpen0 "GBP/USD" 5).wsService.map
        WebSocketService.sent)
        = some (wsOpen0.sent ++ [Msg.unsubscribe "EUR/USD", Msg.subscribe "GBP/USD" 5])
  ∧ WebSocketStore.getOrderBookForSymbol
        (WebSocketStore.subscribeToSymbol storeOpen0 "GBP/USD" 5) "EUR/USD" = none
  ∧ ((WebSocketStore.subscribeToSymbol storeOpen0 "EUR/USD" 10).wsService.map
        WebSocketService.sent) = some (wsOpen0.sent ++ [Msg.subscribe "EUR/USD" 10]) := by
  have h := subscribe_switch storeOpen0 wsOpen0 "EUR/USD" "GBP/USD" 5 10
    rfl rfl rfl (by decide)
  exact ⟨h.1, h.2.1, h.2.2.2⟩

/-- C9: the snapshot cache has pure overwrite semantics — after a second
`orderbook` frame for the same symbol is processed, `getSnapshot`
returns exactly the second frame's data, with no field-level merging;
and a symbol with no stored entry reads back as an explicit absent
result. -/
theorem snapshot_overwrite (s : WebSocketStore) (m1 m2 : OrderBookMessage)
    (t1 t2 : Nat) (hsym : m1.data.symbol = m2.data.symbol) :
    WebSocketStore.getOrderBookForSymbol
        (WebSocketStore.onOrderbook (WebSocketStore.onOrderbook s m1 t1) m2 t2)
        m1.data.symbol = some m2.data
  ∧ (∀ sym, (∀ p ∈ s.orderBookData, p.1 ≠ sym) →
      WebSocketStore.getOrderBookForSymbol s sym = none) := by
  constructor
  · rw [hsym]
    simp [WebSocketStore.getOrderBookForSymbol, WebSocketStore.onOrderbook,
      recGet_recSet]
  · intro sym h
    exact recGet_eq_none s.orderBookData sym h

/-- C9 witness: two concrete frames for `"EUR/USD"` differing in every
price field; the cache ends at exactly the second frame's data. -/
theorem snapshot_overwrite_witness :
    WebSocketStore.getOrderBookForSymbol
        (WebSocketStore.onOrderbook
          (WebSocketStore.onOrderbook storeOpen0 (mkFrame "EUR/USD" "09:01:00" 1 2) 5)
          (mkFrame "EUR/USD" "09:02:00" 3 4) 6)
        ((mkFrame "EUR/USD" "09:01:00" 1 2).data.symbol)
      = some (mkFrame "EUR/USD" "09:02:00" 3 4).data :=
  (snapshot_overwrite storeOpen0 (mkFrame "EUR/USD" "09:01:00" 1 2)
    (mkFrame "EUR/USD" "09:02:00" 3 4) 5 6 rfl).1

/-- C10: every operation that mutates the snapshot cache — storing an
orderbook frame, switching subscription, unsubscribing, disconnecting
(store-level or via the `disconnected` listener) — preserves the
invariant that each symbol key maps to a snapshot whose own `symbol`
field equals that key, because entries are keyed by the stored
snapshot's own `data.symbol`. -/
theorem cache_key_invariant (s : WebSocketStore) (hinv : cacheInv s) :
    (∀ m now, cacheInv (WebSocketStore.onOrderbook s m now))
  ∧ (∀ sym d, cacheInv (WebSocketStore.subscribeToSymbol s sym d))
  ∧ (∀ sym, cacheInv (WebSocketStore.unsubscribeFromSymbol s sym))
  ∧ cacheInv (WebSocketStore.disconnect s)
  ∧ cacheInv (WebSocketStore.onDisconnected s) := by
  obtain ⟨wsv, obd, lu, ic, ce, cur⟩ := s
  refine ⟨?_, ?_, ?_, ?_, ?_⟩
  · intro m now p hp
    rcases mem_recSet _ _ _ p hp with h | h
    · exact hinv p h
    · cases h
      rfl
  · intro sym d p hp
    unfold WebSocketStore.subscribeToSymbol at hp
    cases wsv with
    | none => exact hinv p hp
    | some ws =>
      dsimp only at hp
      split at hp
      · exact hinv p hp
      · cases cur with
        | none => exact hinv p hp
        | some old =>
          dsimp only at hp
          split at hp
          · exact hinv p (mem_recDelete _ _ p hp)
          · exact hinv p hp
  · intro sym p hp
    unfold WebSocketStore.unsubscribeFromSymbol at hp
    cases wsv with
    | none => exact hinv p hp
    | some ws =>
      dsimp only at hp
      split at hp
      · exact hinv p hp
      · exact hinv p (mem_recDelete _ _ p hp)
  · intro p hp
    exact absurd hp (List.not_mem_nil p)
  · intro p hp
    exact absurd hp (List.not_mem_nil p)

/-- C10 witness: the invariant holds on a concrete store and is kept by
storing a `"GBP/USD"` frame and by disconnecting. -/
theorem cache_key_invariant_witness :
    cacheInv (WebSocketStore.onOrderbook storeOpen0 (mkFrame "GBP/USD" "09:01:00" 3 4) 7)
  ∧ cacheInv (WebSocketStore.disconnect storeOpen0) := by
  have h0 : cacheInv storeOpen0 := fun p hp => by
    rcases List.mem_singleton.mp hp with rfl
    rfl
  exact ⟨(cache_key_invariant storeOpen0 h0).1 _ _,
    (cache_key_invariant storeOpen0 h0).2.2.2.1⟩

/-- C2 amended: listeners are invoked synchronously in registration
order (registration appends at the back of the event's list), and when
no listener throws, every registered listener runs in order.  However,
an exception thrown by a listener propagates out of the `forEach`
dispatch, so the listeners registered after it do NOT run in that
dispatch. -/
theorem emit_order (cbs pre post : List Listener) (c : Listener)
    (reg : ListenerRegistry) (event : String) (cb : Listener) :
    ((∀ x ∈ cbs, x.throws = false) → emitRun cbs = (cbs.map Listener.id, false))
  ∧ ((∀ x ∈ pre, x.throws = false) → c.throws = true →
      emitRun (pre ++ c :: post) = (pre.map Listener.id ++ [c.id], true))
  ∧ getListeners (onEvent reg event cb) event = getListeners reg event ++ [cb] :=
  ⟨fun h => emitRun_no_throw cbs h,
   fun hp hc => emitRun_abort pre c post hp hc,
   getListeners_onEvent reg event cb⟩

/-- C2 witness: two non-throwing listeners both run in order; with a
throwing listener in the middle, dispatch covers exactly the prefix up
to and including it. -/
theorem emit_order_witness :
    emitRun [⟨1, false⟩, ⟨2, false⟩]
        = (([⟨1, false⟩, ⟨2, false⟩] : List Listener).map Listener.id, false)
  ∧ emitRun ([⟨1, false⟩] ++ (⟨2, true⟩ : Listener) :: [⟨3, false⟩])
        = (([⟨1, false⟩] : List Listener).map Listener.id
            ++ [(⟨2, true⟩ : Listener).id], true) := by
  have h := emit_order [⟨1, false⟩, ⟨2, false⟩] [⟨1, false⟩] [⟨3, false⟩]
    ⟨2, true⟩ [] "orderbook" ⟨9, false⟩
  exact ⟨h.1 (by decide), h.2.1 (by decide) rfl⟩

/-- C2 counterexample: with listeners 1 (throws) and 2 registered for
`"orderbook"` in that order, a dispatch invokes only listener 1 —
listener 2 is prevented from running by listener 1's exception. -/
theorem emit_abort_counterexample :
    emit (onEvent (onEvent [] "orderbook" ⟨1, true⟩) "orderbook" ⟨2, false⟩) "orderbook"
        = ([1], true)
  ∧ (2 : Nat) ∉ (emit (onEvent (onEvent [] "orderbook" ⟨1, true⟩) "orderbook" ⟨2, false⟩)
        "orderbook").1 := by
  decide

/-- C8 witness: a concrete open service and a concrete in-flight one. -/
theorem connect_guard_witness :
    WebSocketService.connectStart wsOpen0
        = (wsOpen0, WebSocketService.ConnectOutcome.resolvedTrue)
  ∧ WebSocketService.connectStart wsInflight0
        = (wsInflight0, WebSocketService.ConnectOutcome.rejectedInProgress) :=
  ⟨(connect_guard wsOpen0).1 rfl, (connect_guard wsInflight0).2 (by decide) rfl⟩

end Dallal
